import Mathlib

/-!
Shallow embedding of the conference-schedule browser
(`dataService.js`, `searchService.js`, `tagCloudService.js`,
`scheduleRenderer.js`, `navigationService.js`) together with proofs of the
spec's testable properties.

JavaScript values are modelled as follows: optional / possibly-missing
object fields become `Option`, arrays become `List`, strings become
`String`, and numbers that take part in the tag-cloud font computation
become `ℚ`.  A `conferenceData` argument that may be `null`/`undefined`
becomes `Option ConferenceData`, with the possibly-missing `days` array
inside modelled as `Option (List Day)`.
-/

/-- A session record from the dataset.  Fields the code reads through a
truthiness guard (`session.title && …`, `session.tags && …`) are `Option`. -/
structure Session where
  id : String
  title : Option String
  time : String
  room : Option String
  speaker : Option String
  description : Option String
  tags : Option (List String)
  type : Option String
deriving Repr, DecidableEq

/-- A conference day: `{id, name, date, sessions}`. -/
structure Day where
  id : String
  name : String
  date : String
  sessions : List Session
deriving Repr, DecidableEq

/-- The fetched conference data object; its `days` field may be absent. -/
structure ConferenceData where
  days : Option (List Day)
deriving Repr, DecidableEq

/-- A session as returned by `getAllSessions`: the original session spread
together with the owning day's `id`, `name` and `date`
(dataService.js lines 99-104). -/
structure AnnotatedSession where
  session : Session
  dayId : String
  dayName : String
  date : String
deriving Repr, DecidableEq

/-- The per-session body of the `flatMap` in `getAllSessions`:
`{...session, dayId: day.id, dayName: day.name, date: day.date}`. -/
def annotateSession (d : Day) (s : Session) : AnnotatedSession :=
  ⟨s, d.id, d.name, d.date⟩

/-- `getAllSessions(conferenceData)` (dataService.js lines 92-106):
returns `[]` when `conferenceData` or `conferenceData.days` is missing,
else flat-maps each day's sessions, annotating them with day info. -/
def getAllSessions (cd : Option ConferenceData) : List AnnotatedSession :=
  match cd with
  | none => []
  | some c =>
    match c.days with
    | none => []
    | some days => days.flatMap (fun d => d.sessions.map (annotateSession d))

/-- `getSessionsByDay(conferenceData, dayId)` (dataService.js lines
114-121): `[]` on missing data, else the sessions of the first day whose
`id` equals `dayId`, or `[]` when no day matches. -/
def getSessionsByDay (cd : Option ConferenceData) (dayId : String) :
    List Session :=
  match cd with
  | none => []
  | some c =>
    match c.days with
    | none => []
    | some days =>
      match days.find? (fun d => d.id == dayId) with
      | some d => d.sessions
      | none => []

/-- The truthiness-guarded tag membership test
`session.tags && session.tags.includes(filterTag)`
(scheduleRenderer.js lines 487-489). -/
def sessionHasTag (tag : String) (s : Session) : Bool :=
  match s.tags with
  | none => false
  | some ts => ts.contains tag

/-- The tag filter applied to a day's session list inside
`createDayScheduleElement` (scheduleRenderer.js lines 486-490):
`sessionsForDay.filter(session => session.tags && session.tags.includes(filterTag))`. -/
def filterByTag (tag : String) (sessions : List Session) : List Session :=
  sessions.filter (sessionHasTag tag)

/-! ## Search service (searchService.js) -/

/-- `MIN_SEARCH_LENGTH` (searchService.js line 73). -/
def MIN_SEARCH_LENGTH : Nat := 2

/-- `MAX_RESULTS` (searchService.js line 75). -/
def MAX_RESULTS : Nat := 5

/-- Modelled from the ECMAScript built-in `new RegExp(pattern, 'i')` that
`performSearch` calls (searchService.js line 125): pattern compilation
throws a `SyntaxError` when the pattern is not a valid regular expression.
This scanner implements the fragment of pattern well-formedness sufficient
for the inputs considered here: it rejects exactly an unmatched group
parenthesis `(` or `)` outside a character class, an unterminated character
class `[…`, and a trailing backslash — each of which is an unconditional
`SyntaxError` in every ECMAScript implementation.  It accepts everything
else (a conservative over-approximation of validity: a pattern it rejects
really does throw). -/
def regExpScan : List Char → Nat → Bool → Bool
  | [], depth, inClass => decide (depth = 0) && !inClass
  | c :: rest, depth, inClass =>
    if c = '\\' then
      match rest with
      | [] => false
      | _ :: rest2 => regExpScan rest2 depth inClass
    else if inClass then
      if c = ']' then regExpScan rest depth false
      else regExpScan rest depth true
    else if c = '[' then regExpScan rest depth true
    else if c = '(' then regExpScan rest (depth + 1) false
    else if c = ')' then
      match depth with
      | 0 => false
      | d + 1 => regExpScan rest d false
    else regExpScan rest depth false

/-- Whether `new RegExp(pattern, 'i')` compiles without throwing, in the
fragment modelled by `regExpScan`. -/
def regExpCompiles (pattern : String) : Bool :=
  regExpScan pattern.toList 0 false

/-- Modelled from the ECMAScript built-in `RegExp.prototype.test` under the
`'i'` flag, restricted to patterns without regular-expression
metacharacters: such a pattern matches a string exactly when it occurs in
it as a case-insensitive substring.  (The theorems below never depend on
the matcher beyond its totality, so this restriction is harmless.) -/
def regExpTestCI (pattern s : String) : Bool :=
  s.toLower.toList.tails.any (fun t => pattern.toLower.toList.isPrefixOf t)

/-- A truthiness-guarded field test `session.f && searchRegex.test(session.f)`
(searchService.js lines 130-132). -/
def optFieldTest (term : String) : Option String → Bool
  | none => false
  | some v => regExpTestCI term v

/-- The per-session predicate of `performSearch` (searchService.js lines
128-134): the title, speaker and description tests OR'd with
`session.tags && session.tags.some(tag => searchRegex.test(tag))`. -/
def sessionMatchesSearch (term : String) (a : AnnotatedSession) : Bool :=
  optFieldTest term a.session.title ||
  optFieldTest term a.session.speaker ||
  optFieldTest term a.session.description ||
  (match a.session.tags with
   | none => false
   | some ts => ts.any (fun t => regExpTestCI term t))

/-- Modelled from the ECMAScript built-in `String.prototype.trim` applied
to the input value (searchService.js line 91): strips leading and trailing
whitespace.  (Lean's own `String.trim` is equivalent but is implemented in
a way the kernel cannot evaluate, so the stripping is spelled out.) -/
def jsTrim (s : String) : String :=
  ⟨((s.toList.dropWhile Char.isWhitespace).reverse.dropWhile
      Char.isWhitespace).reverse⟩

/-- A JavaScript exception escaping a function; `performSearch` has no
try/catch, so a `SyntaxError` from `new RegExp` propagates uncaught. -/
inductive JsError where
  | invalidRegExp
deriving Repr, DecidableEq

/-- `performSearch(searchTerm)` (searchService.js lines 123-138):
compiles `new RegExp(searchTerm, 'i')` — which throws on an invalid
pattern — then filters `allSessions` by the four-field match and limits
the result with `.slice(0, MAX_RESULTS)`. -/
def performSearch (searchTerm : String) (allSessions : List AnnotatedSession) :
    Except JsError (List AnnotatedSession) :=
  if regExpCompiles searchTerm then
    Except.ok ((allSessions.filter (sessionMatchesSearch searchTerm)).take MAX_RESULTS)
  else
    Except.error JsError.invalidRegExp

/-- Outcome of one input event on the search field: results hidden (no
search ran), a displayed result list (possibly empty, which renders a
"No matching sessions found" item), or an uncaught exception from the
debounced `performSearch` call. -/
inductive SearchOutcome where
  | hidden
  | results (rs : List AnnotatedSession)
  | uncaughtError (e : JsError)
deriving Repr, DecidableEq

/-- The input handler of `setupSearch` (searchService.js lines 90-108),
with the debounce timer elided (the settled behaviour of one keystroke):
trims the input, hides the results when the trimmed term is shorter than
`MIN_SEARCH_LENGTH`, and otherwise runs `performSearch` and displays its
results. -/
def handleSearchInput (input : String) (allSessions : List AnnotatedSession) :
    SearchOutcome :=
  let searchTerm := jsTrim input
  if searchTerm.length < MIN_SEARCH_LENGTH then
    SearchOutcome.hidden
  else
    match performSearch searchTerm allSessions with
    | Except.ok rs => SearchOutcome.results rs
    | Except.error e => SearchOutcome.uncaughtError e

/-! ## Tag cloud service (tagCloudService.js) -/

/-- `MIN_FONT_SIZE` (tagCloudService.js line 228), in em. -/
def MIN_FONT_SIZE : ℚ := 1

/-- `MAX_FONT_SIZE` (tagCloudService.js line 229), in em (2.2). -/
def MAX_FONT_SIZE : ℚ := 11 / 5

/-- The font-size computation of `createTagElement` (tagCloudService.js
lines 316-321): `fontSize` starts at `MIN_FONT_SIZE` and is replaced by the
linear interpolation only when `maxCount !== minCount`.  JavaScript numbers
are modelled as exact rationals. -/
def createTagElementFontSize (count minCount maxCount : ℚ) : ℚ :=
  if maxCount ≠ minCount then
    MIN_FONT_SIZE +
      ((count - minCount) / (maxCount - minCount)) *
        (MAX_FONT_SIZE - MIN_FONT_SIZE)
  else
    MIN_FONT_SIZE

/-- A tag-cloud item as the selection logic sees it: its text content and
whether it carries the `active` class. -/
structure TagCloudItem where
  label : String
  active : Bool
deriving Repr, DecidableEq

/-- The selection part of `showSessionsByTag(tag)` (tagCloudService.js
lines 372-379): every tag element whose text equals `tag` gains the
`active` class and every other loses it. -/
def showSessionsByTagSelect (tag : String) (els : List TagCloudItem) :
    List TagCloudItem :=
  els.map (fun e => ⟨e.label, e.label == tag⟩)

/-- `resetTagFilter()` (tagCloudService.js lines 385-390): removes the
`active` class from every tag element. -/
def resetTagFilter (els : List TagCloudItem) : List TagCloudItem :=
  els.map (fun e => ⟨e.label, false⟩)

/-! ## Schedule renderer (scheduleRenderer.js) -/

/-- A rendered `.day-schedule` DOM section as `setActiveDay` sees it: its
`data-day` attribute, its rendered content (the session ids inside it,
which `setActiveDay` never touches), and whether it carries the `active`
class. -/
structure DaySection where
  dayId : String
  content : List String
  active : Bool
deriving Repr, DecidableEq

/-- The `querySelector`+`classList.add` half of `setActiveDay`
(scheduleRenderer.js lines 644-647): adds `active` to the first section
whose `data-day` matches, if any. -/
def addActiveToFirst (dayId : String) : List DaySection → List DaySection
  | [] => []
  | d :: ds =>
    if d.dayId = dayId then ⟨d.dayId, d.content, true⟩ :: ds
    else d :: addActiveToFirst dayId ds

/-- `setActiveDay(dayId)` (scheduleRenderer.js lines 637-648): removes the
`active` class from every `.day-schedule`, then adds it to the first one
matching `dayId` when such a section exists. -/
def setActiveDay (dayId : String) (sections : List DaySection) :
    List DaySection :=
  addActiveToFirst dayId (sections.map (fun d => ⟨d.dayId, d.content, false⟩))

/-- The sessions rendered inside one day's section by
`createDayScheduleElement` (scheduleRenderer.js lines 483-490): the day's
sessions looked up through `getSessionsByDay`, filtered by the tag when a
filter is active. -/
def dayVisibleSessions (cd : Option ConferenceData) (d : Day)
    (filterTag : Option String) : List Session :=
  let ss := getSessionsByDay cd d.id
  match filterTag with
  | some tag => filterByTag tag ss
  | none => ss

/-- The outcome of `renderSchedule` relevant to the day-section claims:
which day sections were appended (each with its visible sessions, in day
order — a section is appended only when it contains at least one
`.session`, scheduleRenderer.js line 454), and whether the
"No sessions found" empty-state message was appended (lines 463-469). -/
structure RenderedSchedule where
  sections : List (String × List Session)
  noResultsMessage : Bool
deriving Repr, DecidableEq

/-- `renderSchedule(conferenceData, filterTag)` (scheduleRenderer.js lines
415-470): returns `none` on invalid data (missing or empty `days`, line
416's early return), else builds one candidate section per day, keeps those
with visible sessions, and shows the empty-state message exactly when no
section was kept and a filter tag is set. -/
def renderSchedule (cd : Option ConferenceData) (filterTag : Option String) :
    Option RenderedSchedule :=
  match cd with
  | none => none
  | some c =>
    match c.days with
    | none => none
    | some days =>
      if days.isEmpty then none
      else
        let secs :=
          (days.map (fun d => (d.id, dayVisibleSessions (some c) d filterTag))).filter
            (fun p => !p.2.isEmpty)
        some ⟨secs, secs.isEmpty && filterTag.isSome⟩

/-! ## Concrete fixtures used by witness theorems -/

/-- A concrete session (tagged, with all optional fields present). -/
def sessionA : Session :=
  ⟨"s1", some "Keynote: Opening", "09:00", some "Main Hall", some "Ada Lovelace",
   some "Opening keynote", some ["ai", "intro"], some "keynote"⟩

/-- A concrete session with the optional fields absent. -/
def sessionB : Session :=
  ⟨"s2", some "Lunch", "12:00", none, none, none, none, some "break"⟩

/-- A concrete first day holding both sessions. -/
def dayA : Day := ⟨"day1", "Day One", "2025-06-01", [sessionA, sessionB]⟩

/-- A concrete second day holding only the untagged session. -/
def dayB : Day := ⟨"day2", "Day Two", "2025-06-02", [sessionB]⟩

/-! ## Helper lemmas -/

/-- With pairwise-distinct day ids, `days.find(d => d.id === dayId)` at a
member day's id returns exactly that day. -/
theorem find_day_of_nodup {days : List Day} {d : Day}
    (hnd : (days.map Day.id).Nodup) (hd : d ∈ days) :
    days.find? (fun x => x.id == d.id) = some d := by
  induction days with
  | nil => cases hd
  | cons h t ih =>
    rw [List.map_cons, List.nodup_cons] at hnd
    rcases List.mem_cons.mp hd with rfl | hdt
    · exact List.find?_cons_of_pos t (by simp)
    · have hne : ¬((h.id == d.id) = true) := by
        simp only [beq_iff_eq]
        intro he
        exact hnd.1 (he ▸ List.mem_map_of_mem Day.id hdt)
      rw [List.find?_cons_of_neg t hne, ih hnd.2 hdt]

/-! ## Claim theorems -/

/-- C1: for every Conference, `getAllSessions` returns the flattened
sequence whose length equals the sum of each day's session count, ordered
by day order then within-day original order (it is exactly the
concatenation of the per-day annotated session lists), and every element
carries the `dayId`, `dayName` and `date` of the day it came from. -/
theorem getAllSessions_spec (days : List Day) :
    (getAllSessions (some ⟨some days⟩)).length
        = (days.map (fun d => d.sessions.length)).sum ∧
    getAllSessions (some ⟨some days⟩)
        = (days.map (fun d => d.sessions.map (annotateSession d))).flatten ∧
    ∀ a ∈ getAllSessions (some ⟨some days⟩), ∃ d ∈ days,
      a.session ∈ d.sessions ∧ a.dayId = d.id ∧ a.dayName = d.name ∧
        a.date = d.date := by
  refine ⟨?_, ?_, ?_⟩
  · simp only [getAllSessions, List.length_flatMap]
    congr 1
    refine List.map_congr_left (fun d _ => ?_)
    simp
  · simp [getAllSessions, List.flatMap_def]
  · intro a ha
    simp only [getAllSessions, List.mem_flatMap] at ha
    obtain ⟨d, hd, had⟩ := ha
    obtain ⟨s, hs, rfl⟩ := List.mem_map.mp had
    exact ⟨d, hd, hs, rfl, rfl, rfl⟩

/-- Witness for C1: in a concrete two-day conference, the annotated first
session is an element of `getAllSessions` and carries its day's data. -/
theorem getAllSessions_spec_witness :
    ∃ d ∈ [dayA, dayB], (annotateSession dayA sessionA).session ∈ d.sessions ∧
      (annotateSession dayA sessionA).dayId = d.id ∧
      (annotateSession dayA sessionA).dayName = d.name ∧
        (annotateSession dayA sessionA).date = d.date :=
  (getAllSessions_spec [dayA, dayB]).2.2 (annotateSession dayA sessionA) (by decide)

/-- C2: for every tag and session sequence, the tag filter returns exactly
the subsequence of sessions whose tags contain the tag (order preserved,
no cap — the membership characterisation is an equivalence), and applying
it twice equals applying it once. -/
theorem filterByTag_spec (tag : String) (sessions : List Session) :
    List.Sublist (filterByTag tag sessions) sessions ∧
    (∀ s, s ∈ filterByTag tag sessions ↔
        s ∈ sessions ∧ sessionHasTag tag s = true) ∧
    filterByTag tag (filterByTag tag sessions) = filterByTag tag sessions := by
  refine ⟨List.filter_sublist sessions, fun s => List.mem_filter, ?_⟩
  simp [filterByTag, List.filter_filter]

/-- Witness for C2: a tagged session is kept by the tag filter on a
concrete list. -/
theorem filterByTag_spec_witness :
    sessionA ∈ filterByTag "ai" [sessionA, sessionB] :=
  ((filterByTag_spec "ai" [sessionA, sessionB]).2.1 sessionA).mpr
    ⟨by decide, by decide⟩

/-- C7: the sessions-for-day lookup returns `[]` for a dayId matching no
day (total, no error), and the matching day's session list for a known
dayId (under the Conference invariant of distinct day ids). -/
theorem getSessionsByDay_spec (days : List Day) (dayId : String) :
    ((∀ d ∈ days, d.id ≠ dayId) →
        getSessionsByDay (some ⟨some days⟩) dayId = []) ∧
    ((days.map Day.id).Nodup → ∀ d ∈ days, d.id = dayId →
        getSessionsByDay (some ⟨some days⟩) dayId = d.sessions) := by
  constructor
  · intro h
    have hf : days.find? (fun d => d.id == dayId) = none := by
      rw [List.find?_eq_none]
      intro x hx
      simp only [beq_iff_eq]
      exact h x hx
    simp [getSessionsByDay, hf]
  · intro hnd d hd hid
    have hf := find_day_of_nodup hnd hd
    rw [hid] at hf
    simp [getSessionsByDay, hf]

/-- Witness for C7: on a concrete two-day conference, an unknown dayId
yields `[]` and a known dayId yields that day's sessions. -/
theorem getSessionsByDay_spec_witness :
    getSessionsByDay (some ⟨some [dayA, dayB]⟩) "nonexistent" = [] ∧
    getSessionsByDay (some ⟨some [dayA, dayB]⟩) "day2" = dayB.sessions :=
  ⟨(getSessionsByDay_spec [dayA, dayB] "nonexistent").1 (by decide),
   (getSessionsByDay_spec [dayA, dayB] "day2").2 (by decide) dayB (by decide)
     (by decide)⟩

/-- C10: with a null conference object or one without a `days` field, both
store read queries return `[]` rather than raising an error. -/
theorem storeQueries_total_without_data :
    getAllSessions none = [] ∧
    getAllSessions (some ⟨none⟩) = [] ∧
    (∀ dayId, getSessionsByDay none dayId = []) ∧
    (∀ dayId, getSessionsByDay (some ⟨none⟩) dayId = []) :=
  ⟨rfl, rfl, fun _ => rfl, fun _ => rfl⟩

/-- C3: a query whose trimmed text is shorter than 2 characters hides the
results and runs no search (an outcome distinct from a search that found
nothing), and any displayed result list has at most 5 sessions. -/
theorem handleSearchInput_spec (input : String)
    (allSessions : List AnnotatedSession) :
    ((jsTrim input).length < 2 →
        handleSearchInput input allSessions = SearchOutcome.hidden) ∧
    (∀ rs, handleSearchInput input allSessions = SearchOutcome.results rs →
        rs.length ≤ 5) ∧
    SearchOutcome.hidden ≠ SearchOutcome.results [] := by
  refine ⟨?_, ?_, by simp⟩
  · intro h
    simp [handleSearchInput, MIN_SEARCH_LENGTH, h]
  · intro rs hrs
    by_cases h : (jsTrim input).length < MIN_SEARCH_LENGTH
    · simp [handleSearchInput, h] at hrs
    · by_cases hc : regExpCompiles (jsTrim input)
      · simp [handleSearchInput, performSearch, h, hc] at hrs
        subst hrs
        exact List.length_take_le _ _
      · simp [handleSearchInput, performSearch, h, hc] at hrs

/-- Witness for C3: a one-character query hides the results; a
two-character query on an empty store displays at most 5 results. -/
theorem handleSearchInput_spec_witness :
    handleSearchInput " k " [] = SearchOutcome.hidden ∧
    ([] : List AnnotatedSession).length ≤ 5 :=
  ⟨(handleSearchInput_spec " k " []).1 (by decide),
   (handleSearchInput_spec "ab" []).2.1 [] (by decide)⟩

/-- C4 (code-bug exhibit): the two-character query `((` passes the
minimum-length gate, and `performSearch` then evaluates
`new RegExp('((', 'i')`, which throws an uncaught SyntaxError — the search
is not total on arbitrary user input containing regex metacharacters. -/
theorem performSearch_throws_on_unbalanced_paren :
    performSearch "((" [] = Except.error JsError.invalidRegExp ∧
    handleSearchInput "((" []
      = SearchOutcome.uncaughtError JsError.invalidRegExp := by
  constructor <;> rfl

/-- C5: when the maximum tag count equals the minimum, every rendered font
size is the minimum size; otherwise each size is the stated linear
interpolation; and the size is monotone non-decreasing in the count. -/
theorem createTagElementFontSize_spec (minCount maxCount : ℚ) :
    (maxCount = minCount →
        ∀ count, createTagElementFontSize count minCount maxCount
          = MIN_FONT_SIZE) ∧
    (maxCount ≠ minCount →
        ∀ count, createTagElementFontSize count minCount maxCount
          = MIN_FONT_SIZE + ((count - minCount) / (maxCount - minCount))
              * (MAX_FONT_SIZE - MIN_FONT_SIZE)) ∧
    (minCount ≤ maxCount → ∀ c1 c2 : ℚ, c1 ≤ c2 →
        createTagElementFontSize c1 minCount maxCount
          ≤ createTagElementFontSize c2 minCount maxCount) := by
  refine ⟨fun h count => by simp [createTagElementFontSize, h],
    fun h count => by simp [createTagElementFontSize, h], ?_⟩
  intro hle c1 c2 hc
  by_cases h : maxCount = minCount
  · simp [createTagElementFontSize, h]
  · have hpos : 0 < maxCount - minCount := by
      rcases lt_or_eq_of_le hle with hlt | heq
      · linarith
      · exact absurd heq.symm h
    have h65 : (0 : ℚ) ≤ MAX_FONT_SIZE - MIN_FONT_SIZE := by
      norm_num [MIN_FONT_SIZE, MAX_FONT_SIZE]
    rw [createTagElementFontSize, createTagElementFontSize, if_pos h, if_pos h]
    apply add_le_add_left
    exact mul_le_mul_of_nonneg_right
      ((div_le_div_iff_of_pos_right hpos).mpr (sub_le_sub_right hc _)) h65

/-- Witness for C5: concrete instances of the degenerate case, the
interpolation formula, and monotonicity. -/
theorem createTagElementFontSize_spec_witness :
    createTagElementFontSize 3 3 3 = MIN_FONT_SIZE ∧
    createTagElementFontSize 2 1 3
      = MIN_FONT_SIZE + ((2 - 1) / (3 - 1)) * (MAX_FONT_SIZE - MIN_FONT_SIZE) ∧
    createTagElementFontSize 1 1 3 ≤ createTagElementFontSize 2 1 3 :=
  ⟨(createTagElementFontSize_spec 3 3).1 rfl 3,
   (createTagElementFontSize_spec 1 3).2.1 (by norm_num) 2,
   (createTagElementFontSize_spec 1 3).2.2 (by norm_num) 1 2 (by norm_num)⟩

/-- `addActiveToFirst` never changes a section's `data-day` or content. -/
theorem addActiveToFirst_map_fields (dayId : String) (ss : List DaySection) :
    (addActiveToFirst dayId ss).map (fun d => (d.dayId, d.content))
      = ss.map (fun d => (d.dayId, d.content)) := by
  induction ss with
  | nil => rfl
  | cons h t ih =>
    by_cases hd : h.dayId = dayId
    · simp [addActiveToFirst, hd]
    · simp [addActiveToFirst, hd, ih]

/-- `addActiveToFirst` is the identity when no section matches. -/
theorem addActiveToFirst_id (dayId : String) (ss : List DaySection)
    (h : ∀ d ∈ ss, d.dayId ≠ dayId) : addActiveToFirst dayId ss = ss := by
  induction ss with
  | nil => rfl
  | cons hd t ih =>
    have h1 : hd.dayId ≠ dayId := h hd (List.mem_cons_self hd t)
    simp [addActiveToFirst, h1,
      ih (fun d hdt => h d (List.mem_cons_of_mem hd hdt))]

/-- After clearing, the only section `addActiveToFirst` can leave active is
one matching the requested dayId. -/
theorem addActiveToFirst_active_imp (dayId : String) (ss : List DaySection)
    (h : ∀ d ∈ ss, d.active = false) :
    ∀ d ∈ addActiveToFirst dayId ss, d.active = true → d.dayId = dayId := by
  induction ss with
  | nil =>
    intro d hd
    cases hd
  | cons hd t ih =>
    intro d hdm hact
    by_cases he : hd.dayId = dayId
    · rw [addActiveToFirst, if_pos he] at hdm
      rcases List.mem_cons.mp hdm with rfl | hdt
      · exact he
      · exact absurd hact (by simp [h d (List.mem_cons_of_mem hd hdt)])
    · rw [addActiveToFirst, if_neg he] at hdm
      rcases List.mem_cons.mp hdm with rfl | hdt
      · exact absurd hact (by simp [h d (List.mem_cons_self d t)])
      · exact ih (fun x hx => h x (List.mem_cons_of_mem hd hx)) d hdt hact

/-- C6 counterexample: with one rendered section `day1` currently active,
`setActiveDay("day2")` is not a no-op — it strips the active styling from
`day1` even though no section matches `day2`. -/
theorem setActiveDay_unknown_changes_state :
    setActiveDay "day2" [⟨"day1", ["s1"], true⟩] ≠ [⟨"day1", ["s1"], true⟩] := by
  decide

/-- C6 (amended): `setActiveDay` never changes which sections exist or
their rendered content (only `active` flags); any section left active
matches the requested dayId; and when no section matches, the result is
the input with every section's active styling cleared (not the unchanged
input). -/
theorem setActiveDay_spec (dayId : String) (sections : List DaySection) :
    ((setActiveDay dayId sections).map (fun d => (d.dayId, d.content))
        = sections.map (fun d => (d.dayId, d.content))) ∧
    (∀ d ∈ setActiveDay dayId sections, d.active = true → d.dayId = dayId) ∧
    ((∀ d ∈ sections, d.dayId ≠ dayId) →
        setActiveDay dayId sections
          = sections.map (fun d => ⟨d.dayId, d.content, false⟩)) := by
  refine ⟨?_, ?_, ?_⟩
  · rw [setActiveDay, addActiveToFirst_map_fields, List.map_map]
    rfl
  · refine addActiveToFirst_active_imp dayId _ (fun d hd => ?_)
    obtain ⟨x, hx, rfl⟩ := List.mem_map.mp hd
    rfl
  · intro h
    rw [setActiveDay]
    refine addActiveToFirst_id dayId _ (fun d hd => ?_)
    obtain ⟨x, hx, rfl⟩ := List.mem_map.mp hd
    exact h x hx

/-- Witness for C6 (amended): on the concrete one-section DOM, the unknown
dayId leaves the section rendered but cleared. -/
theorem setActiveDay_spec_witness :
    setActiveDay "day2" [⟨"day1", ["s1"], true⟩] = [⟨"day1", ["s1"], false⟩] :=
  (setActiveDay_spec "day2" [⟨"day1", ["s1"], true⟩]).2.2 (by decide)

/-- C8: under an active tag filter on a valid conference with distinct day
ids, the rendered schedule has a day section exactly for the days with at
least one matching session (in day order, each holding exactly the
filtered sessions), and the empty-state message is rendered exactly when
no day has a matching session. -/
theorem renderSchedule_spec (days : List Day) (tag : String)
    (hne : days ≠ []) (hnd : (days.map Day.id).Nodup) :
    ∃ r, renderSchedule (some ⟨some days⟩) (some tag) = some r ∧
      r.sections
        = (days.filter (fun d => !(filterByTag tag d.sessions).isEmpty)).map
            (fun d => (d.id, filterByTag tag d.sessions)) ∧
      (r.noResultsMessage = true ↔
        ∀ d ∈ days, filterByTag tag d.sessions = []) := by
  have hvis : ∀ d ∈ days,
      dayVisibleSessions (some ⟨some days⟩) d (some tag)
        = filterByTag tag d.sessions := by
    intro d hd
    have hf := find_day_of_nodup hnd hd
    simp [dayVisibleSessions, getSessionsByDay, hf]
  have hmap :
      days.map (fun d => (d.id, dayVisibleSessions (some ⟨some days⟩) d (some tag)))
        = days.map (fun d => (d.id, filterByTag tag d.sessions)) :=
    List.map_congr_left (fun d hd => by rw [hvis d hd])
  have hie : days.isEmpty = false := by
    cases days with
    | nil => exact absurd rfl hne
    | cons h t => rfl
  have hr : renderSchedule (some ⟨some days⟩) (some tag)
      = some ⟨(days.map (fun d => (d.id, filterByTag tag d.sessions))).filter
                (fun p => !p.2.isEmpty),
              ((days.map (fun d => (d.id, filterByTag tag d.sessions))).filter
                (fun p => !p.2.isEmpty)).isEmpty && true⟩ := by
    simp only [renderSchedule, hie, Bool.false_eq_true, if_false, hmap,
      Option.isSome_some]
  refine ⟨_, hr, ?_, ?_⟩
  · rw [List.filter_map]
    rfl
  · rw [Bool.and_true, List.filter_map, List.isEmpty_iff]
    constructor
    · intro hnil d hd
      have := List.map_eq_nil_iff.mp hnil
      have hd2 := List.filter_eq_nil_iff.mp this d hd
      simpa using hd2
    · intro hall
      rw [List.map_eq_nil_iff, List.filter_eq_nil_iff]
      intro d hd
      simp [hall d hd]

/-- Witness for C8: in the concrete two-day conference, only the day with
an `ai`-tagged session gets a section and no empty-state message shows. -/
theorem renderSchedule_spec_witness :
    ∃ r, renderSchedule (some ⟨some [dayA, dayB]⟩) (some "ai") = some r ∧
      r.sections
        = ([dayA, dayB].filter
              (fun d => !(filterByTag "ai" d.sessions).isEmpty)).map
            (fun d => (d.id, filterByTag "ai" d.sessions)) ∧
      (r.noResultsMessage = true ↔
        ∀ d ∈ [dayA, dayB], filterByTag "ai" d.sessions = []) :=
  renderSchedule_spec [dayA, dayB] "ai" (by decide) (by decide)

/-- C9: clicking a tag in the tag cloud selects exactly that tag and clears
every other selection — with distinct rendered tag labels exactly one item
is selected afterwards — and the reset event clears every selection, so
both operations preserve the at-most-one-selected invariant. -/
theorem showSessionsByTag_spec (tag : String) (els : List TagCloudItem)
    (hnd : (els.map TagCloudItem.label).Nodup)
    (hmem : tag ∈ els.map TagCloudItem.label) :
    (∀ e ∈ showSessionsByTagSelect tag els, e.active = true ↔ e.label = tag) ∧
    ((showSessionsByTagSelect tag els).filter (fun e => e.active)).length = 1 ∧
    (∀ e ∈ resetTagFilter els, e.active = false) ∧
    ((resetTagFilter els).filter (fun e => e.active)).length = 0 := by
  refine ⟨?_, ?_, ?_, ?_⟩
  · intro e he
    obtain ⟨x, hx, rfl⟩ := List.mem_map.mp he
    simp
  · have h1 : ((showSessionsByTagSelect tag els).filter (fun e => e.active)).length
        = List.count tag (els.map TagCloudItem.label) := by
      rw [showSessionsByTagSelect, List.filter_map, List.length_map,
        ← List.countP_eq_length_filter, List.count, List.countP_map]
      rfl
    rw [h1, List.count_eq_one_of_mem hnd hmem]
  · intro e he
    obtain ⟨x, hx, rfl⟩ := List.mem_map.mp he
    rfl
  · have h0 : (resetTagFilter els).filter (fun e => e.active) = [] := by
      rw [List.filter_eq_nil_iff]
      intro e he
      obtain ⟨x, hx, rfl⟩ := List.mem_map.mp he
      simp
    rw [h0]
    rfl

/-- Witness for C9: on a concrete two-item cloud, clicking `ai` leaves
exactly one selected item and resetting leaves none. -/
theorem showSessionsByTag_spec_witness :
    ((showSessionsByTagSelect "ai" [⟨"ai", false⟩, ⟨"cloud", true⟩]).filter
        (fun e => e.active)).length = 1 ∧
    ((resetTagFilter [⟨"ai", true⟩, ⟨"cloud", true⟩]).filter
        (fun e => e.active)).length = 0 :=
  ⟨(showSessionsByTag_spec "ai" [⟨"ai", false⟩, ⟨"cloud", true⟩]
      (by decide) (by decide)).2.1,
   (showSessionsByTag_spec "ai" [⟨"ai", true⟩, ⟨"cloud", true⟩]
      (by decide) (by decide)).2.2.2⟩
